import Mathlib

/-!
Verification of the wood-cutting-machine CAD-to-toolpath pipeline
(`src/app.py`): the DXF analyzer (`DXFAnalyzer`) and the G-code generator
(`GCodeGenerator`), shallowly embedded in Lean 4.

Numeric model: the Python code manipulates numbers that are either `int`s
or floats holding exact decimal values (DXF coordinates, parameter
overrides).  We model such a value as `PyFloat` = mantissa `m : ℤ` together
with a decimal exponent `e : ℕ`, denoting `m / 10^e`; all arithmetic used
by the pipeline (comparison, subtraction, multiplication, min/max) is exact
on this representation, and Python's numeric rendering (`str`, `:.1f`)
is modelled by executable functions on it.
-/

/-- Powers of ten, as integers. -/
def tenPow : ℕ → ℤ
  | 0 => 1
  | n + 1 => 10 * tenPow n

/-- An exact decimal value `m / 10^e`, modelling the Python floats and ints
flowing through the pipeline. -/
structure PyFloat where
  m : ℤ
  e : ℕ
deriving DecidableEq

namespace PyFloat

/-- Embed an integer. -/
def ofInt (z : ℤ) : PyFloat := ⟨z, 0⟩

/-- Exact `≤` on decimal values (Python `<=`). -/
def leb (a b : PyFloat) : Bool := decide (a.m * tenPow b.e ≤ b.m * tenPow a.e)

/-- Exact `<` on decimal values (Python `<`). -/
def ltb (a b : PyFloat) : Bool := decide (a.m * tenPow b.e < b.m * tenPow a.e)

/-- Exact subtraction (Python `-`). -/
def sub (a b : PyFloat) : PyFloat := ⟨a.m * tenPow b.e - b.m * tenPow a.e, a.e + b.e⟩

/-- Exact multiplication (Python `*`). -/
def mul (a b : PyFloat) : PyFloat := ⟨a.m * b.m, a.e + b.e⟩

/-- Python `max` of two values (keeps the first on ties). -/
def maxD (a b : PyFloat) : PyFloat := if a.ltb b then b else a

/-- Python `min` of two values (keeps the first on ties). -/
def minD (a b : PyFloat) : PyFloat := if b.ltb a then b else a

end PyFloat

/-- Python `max` over a nonempty list (left fold from the head; the default
for `[]` is never used by the analyzer, which guards on nonemptiness). -/
def listMax : List PyFloat → PyFloat
  | [] => ⟨0, 0⟩
  | x :: xs => xs.foldl PyFloat.maxD x

/-- Python `min` over a nonempty list. -/
def listMin : List PyFloat → PyFloat
  | [] => ⟨0, 0⟩
  | x :: xs => xs.foldl PyFloat.minD x

/-- Decimal digits of a natural number, most significant first
(fuel-driven so that the kernel can evaluate it). -/
def natDigitsGo : ℕ → ℕ → List Char
  | 0, _ => []
  | fuel + 1, n =>
      if n < 10 then [Nat.digitChar n]
      else natDigitsGo fuel (n / 10) ++ [Nat.digitChar (n % 10)]

/-- Decimal digits of a natural number, most significant first. -/
def natDigits (n : ℕ) : List Char := natDigitsGo (n + 1) n

/-- Python `str` of a natural number. -/
def natStr (n : ℕ) : String := String.mk (natDigits n)

/-- Python `str` of an integer. -/
def intStr (z : ℤ) : String := (if z < 0 then "-" else "") ++ natStr z.natAbs

/-- Round `N / D` (with `D > 0`) to the nearest integer, ties to even —
the rounding used by Python's fixed-point formatting. -/
def rheDiv (N D : ℤ) : ℤ :=
  let f := Int.fdiv N D
  let r := N - f * D
  if 2 * r < D then f
  else if D < 2 * r then f + 1
  else if f % 2 = 0 then f else f + 1

/-- Python `f"{x:.1f}"`: the value rounded (ties to even) to one decimal
digit, always rendered with exactly one digit after the point. -/
def fmt1 (x : PyFloat) : String :=
  let n := rheDiv (x.m * 10) (tenPow x.e)
  (if n < 0 ∨ (n = 0 ∧ x.m < 0) then "-" else "")
    ++ natStr (n.natAbs / 10) ++ "." ++ natStr (n.natAbs % 10)

/-- Drop factors of ten from a mantissa/exponent pair (Python's float
`repr` shows the shortest decimal form). -/
def stripZeros : ℤ → ℕ → ℤ × ℕ
  | m, 0 => (m, 0)
  | m, e + 1 => if m % 10 = 0 then stripZeros (m / 10) e else (m, e + 1)

/-- Python `str` of a float holding an exact decimal value: the shortest
decimal form, with at least one digit after the point. -/
def floatStr (x : PyFloat) : String :=
  match stripZeros x.m x.e with
  | (m, 0) => intStr m ++ ".0"
  | (m, e) =>
      let a := m.natAbs
      (if m < 0 then "-" else "")
        ++ natStr (a / 10 ^ e) ++ "."
        ++ String.mk (List.replicate (e - (natDigits (a % 10 ^ e)).length) '0'
              ++ natDigits (a % 10 ^ e))

/-- A Python number as it sits in the parameter dictionary: an `int`
(the documented defaults) or a float (as may arrive from a JSON
parameter overlay). -/
inductive PyNum where
  | pint (z : ℤ)
  | pfloat (x : PyFloat)
deriving DecidableEq

/-- The numeric value of a parameter entry. -/
def PyNum.val : PyNum → PyFloat
  | .pint z => ⟨z, 0⟩
  | .pfloat x => x

/-- Python `str` / f-string interpolation of a parameter entry:
`str(int)` has no decimal point, `str(float)` always has one. -/
def pyStr : PyNum → String
  | .pint z => intStr z
  | .pfloat x => floatStr x

/-! ## The geometry extractor / filter (`DXFAnalyzer`, src/app.py lines 42–138) -/

/-- A modelspace entity as the analyzer's loop sees it: the three kinds it
handles, and a catch-all for every other DXF type (skipped). -/
inductive Entity where
  | lwpolyline (points : List (PyFloat × PyFloat)) (closed : Bool)
  | circle (center : PyFloat × PyFloat) (radius : PyFloat)
  | text (content : String) (insert : PyFloat × PyFloat)
  | other
deriving DecidableEq

/-- A selected polyline record (`entity_info` with `points`, `closed`,
`area` as built at src/app.py lines 91–105). -/
structure PolyRec where
  points : List (PyFloat × PyFloat)
  closed : Bool
  area : PyFloat
deriving DecidableEq

/-- A selected circle record (src/app.py lines 112–114). -/
structure CircRec where
  center : PyFloat × PyFloat
  radius : PyFloat
deriving DecidableEq

/-- A selected text record (src/app.py lines 118–122). -/
structure TextRec where
  content : String
  position : PyFloat × PyFloat
deriving DecidableEq

/-- The analyzer's accumulated state (`self.polylines`, `self.circles`,
`self.texts`, and the count of all entities seen). -/
structure AnalyzerState where
  polylines : List PolyRec
  circles : List CircRec
  texts : List TextRec
  entities : ℕ
deriving DecidableEq

/-- The reset state at the top of `analyze_file` (src/app.py lines 69–72). -/
def emptyState : AnalyzerState := ⟨[], [], [], 0⟩

/-- `DXFAnalyzer.is_valid_coordinate` (src/app.py lines 51–53):
`0 <= x <= max_x and 0 <= y <= max_y` with the default bounds 2500/3000. -/
def is_valid_coordinate (x y : PyFloat) : Bool :=
  PyFloat.leb ⟨0, 0⟩ x && PyFloat.leb x ⟨2500, 0⟩
    && PyFloat.leb ⟨0, 0⟩ y && PyFloat.leb y ⟨3000, 0⟩

/-- `DXFAnalyzer.filter_geometry` (src/app.py lines 55–61): keep only the
in-envelope points. -/
def filter_geometry (points : List (PyFloat × PyFloat)) : List (PyFloat × PyFloat) :=
  points.filter fun pt => is_valid_coordinate pt.1 pt.2

/-- One iteration of the entity loop of `DXFAnalyzer.analyze_file`
(src/app.py lines 74–124): classify the entity, apply the machinability
checks and the polyline/circle caps, and append to the running state. -/
def processEntity (st : AnalyzerState) (e : Entity) : AnalyzerState :=
  let st' : AnalyzerState :=
    match e with
    | .lwpolyline pts closed =>
        let points := pts.filter fun pt => is_valid_coordinate pt.1 pt.2
        if 3 ≤ points.length then
          let width := PyFloat.sub (listMax (points.map Prod.fst)) (listMin (points.map Prod.fst))
          let height := PyFloat.sub (listMax (points.map Prod.snd)) (listMin (points.map Prod.snd))
          if (!(PyFloat.ltb ⟨1000, 0⟩ width && PyFloat.ltb ⟨2000, 0⟩ height))
              && (PyFloat.ltb ⟨50, 0⟩ width && PyFloat.ltb ⟨50, 0⟩ height)
              && decide (st.polylines.length < 2) then
            { st with polylines := st.polylines ++ [⟨points, closed, PyFloat.mul width height⟩] }
          else st
        else st
    | .circle c r =>
        if is_valid_coordinate c.1 c.2 && PyFloat.leb ⟨5, 0⟩ r && PyFloat.leb r ⟨50, 0⟩
            && decide (st.circles.length < 4) then
          { st with circles := st.circles ++ [⟨c, r⟩] }
        else st
    | .text content pos =>
        if is_valid_coordinate pos.1 pos.2 then
          { st with texts := st.texts ++ [⟨content, pos⟩] }
        else st
    | .other => st
  { st' with entities := st'.entities + 1 }

/-- `DXFAnalyzer.analyze_file` restricted to its geometric content: a single
forward pass over the document's entities in native order. -/
def analyze_file (entities : List Entity) : AnalyzerState :=
  entities.foldl processEntity emptyState

/-! ## The toolpath sequencer (`GCodeGenerator`, src/app.py lines 140–276) -/

/-- The machining-parameter dictionary (`self.params`,
src/app.py lines 145–154). -/
structure Params where
  thickness : PyNum
  cutter_speed : PyNum
  drill_speed : PyNum
  feed_rate : PyNum
  safe_height : PyNum
  cut_depth : PyNum
  drill_depth : PyNum
  process_order : String
deriving DecidableEq

/-- The documented defaults (src/app.py lines 145–154): all `int`s, and
`process_order = 'drill_first'`. -/
def default_params : Params :=
  ⟨.pint 18, .pint 18000, .pint 18000, .pint 12000, .pint 48, .pint 18, .pint 7, "drill_first"⟩

/-- `GCodeGenerator.generate_header` (src/app.py lines 160–165). -/
def generate_header : List String := ["G54"]

/-- `GCodeGenerator.generate_tool_change` (src/app.py lines 167–175). -/
def generate_tool_change (p : Params) (tool_num : ℕ) (spindle_speed : PyNum) : List String :=
  ["M6 T" ++ natStr tool_num,
   "M03 S" ++ pyStr spindle_speed,
   "G43 H" ++ natStr tool_num,
   "G00 Z" ++ pyStr p.safe_height ++ ".0"]

/-- `GCodeGenerator.generate_drill_hole` (src/app.py lines 177–184). -/
def generate_drill_hole (p : Params) (x y : PyFloat) (depth : PyNum) : List String :=
  ["G00 X" ++ fmt1 x ++ " Y" ++ fmt1 y,
   "G01 Z" ++ fmt1 depth.val ++ " F3000",
   "G00 Z" ++ pyStr p.safe_height ++ ".0"]

/-- `GCodeGenerator.generate_cut_polyline` (src/app.py lines 186–210). -/
def generate_cut_polyline (p : Params) (points : List (PyFloat × PyFloat)) (closed : Bool) :
    List String :=
  if points.length < 2 then []
  else
    match points with
    | [] => []
    | start :: rest =>
        ["G00 X" ++ fmt1 start.1 ++ " Y" ++ fmt1 start.2,
         "G01 Z" ++ fmt1 p.cut_depth.val ++ " F3000"]
        ++ rest.map (fun pt => "G01 X" ++ fmt1 pt.1 ++ " Y" ++ fmt1 pt.2 ++ " F" ++ pyStr p.feed_rate)
        ++ (if closed && decide (2 < points.length) then
              ["G01 X" ++ fmt1 start.1 ++ " Y" ++ fmt1 start.2]
            else [])
        ++ ["G00 Z" ++ pyStr p.safe_height ++ ".0"]

/-- `GCodeGenerator.generate_footer` (src/app.py lines 212–219). -/
def generate_footer : List String := ["M05", "G53 X100.0Y2850.0", "M30"]

/-- The drilling block of `generate_gcode` (src/app.py lines 231–235 and
250–254): tool change to T2 then one drill cycle per circle, or nothing when
there are no circles. -/
def drilling_block (p : Params) (circles : List CircRec) : List String :=
  if circles.isEmpty then []
  else
    generate_tool_change p 2 p.drill_speed
      ++ (circles.map fun c => generate_drill_hole p c.center.1 c.center.2 p.drill_depth).flatten

/-- The cutting block of `generate_gcode` (src/app.py lines 238–241 and
244–247): tool change to T1 then one cut cycle per polyline, or nothing when
there are no polylines. -/
def cutting_block (p : Params) (polylines : List PolyRec) : List String :=
  if polylines.isEmpty then []
  else
    generate_tool_change p 1 p.cutter_speed
      ++ (polylines.map fun pl => generate_cut_polyline p pl.points pl.closed).flatten

/-- The line sequence built by `GCodeGenerator.generate_gcode`
(src/app.py lines 221–257): header, then the two blocks in the order chosen
by `process_order` (any value other than `'drill_first'` takes the
cut-first branch), then footer. -/
def generate_gcode (p : Params) (a : AnalyzerState) : List String :=
  generate_header
    ++ (if p.process_order = "drill_first" then
          drilling_block p a.circles ++ cutting_block p a.polylines
        else
          cutting_block p a.polylines ++ drilling_block p a.circles)
    ++ generate_footer

/-- The text obtained by writing each line followed by a newline
(the loop body of src/app.py lines 262–263). -/
def linesText : List String → String
  | [] => ""
  | l :: ls => l ++ "\n" ++ linesText ls

/-- The program text as persisted (src/app.py lines 261–263): each line
followed by a newline. -/
def programText (p : Params) (a : AnalyzerState) : String :=
  linesText (generate_gcode p a)

/-- The per-line write loop of `generate_gcode` (src/app.py lines 261–263)
under an explicit failure model: `open(..., 'w')` truncates the file, then
each line is written in turn; `budget` is the number of line writes that
succeed before an I/O failure (no failure when `budget ≥ |lines|`).
Returns (success flag, file content left on disk). -/
def write_lines : List String → ℕ → String → Bool × String
  | [], _, file => (true, file)
  | _ :: _, 0, file => (false, file)
  | l :: ls, b + 1, file => write_lines ls b (file ++ l ++ "\n")

/-- Persist a generated program: start from the empty (truncated) file. -/
def persist_program (lines : List String) (budget : ℕ) : Bool × String :=
  write_lines lines budget ""

/-! ## Characterization of the filter pass

The conditional appends of the entity loop are restated as `Option`-valued
selectors (the acceptance test of each branch, without the count cap), so
that the forward pass can be described as `filterMap` + `take`. -/

/-- The polyline acceptance test of src/app.py lines 81–105 (without the
`len(self.polylines) < 2` cap), returning the record it would append. -/
def polyAccept (pts : List (PyFloat × PyFloat)) (closed : Bool) : Option PolyRec :=
  let points := pts.filter fun pt => is_valid_coordinate pt.1 pt.2
  if 3 ≤ points.length then
    let width := PyFloat.sub (listMax (points.map Prod.fst)) (listMin (points.map Prod.fst))
    let height := PyFloat.sub (listMax (points.map Prod.snd)) (listMin (points.map Prod.snd))
    if (!(PyFloat.ltb ⟨1000, 0⟩ width && PyFloat.ltb ⟨2000, 0⟩ height))
        && (PyFloat.ltb ⟨50, 0⟩ width && PyFloat.ltb ⟨50, 0⟩ height) then
      some ⟨points, closed, PyFloat.mul width height⟩
    else none
  else none

/-- Selector form of the polyline branch. -/
def polySel : Entity → Option PolyRec
  | .lwpolyline pts closed => polyAccept pts closed
  | _ => none

/-- Selector form of the circle branch (src/app.py lines 107–114, without
the `len(self.circles) < 4` cap). -/
def circSel : Entity → Option CircRec
  | .circle c r =>
      if is_valid_coordinate c.1 c.2 && PyFloat.leb ⟨5, 0⟩ r && PyFloat.leb r ⟨50, 0⟩ then
        some ⟨c, r⟩
      else none
  | _ => none

/-- Selector form of the text branch (src/app.py lines 116–122). -/
def textSel : Entity → Option TextRec
  | .text content pos =>
      if is_valid_coordinate pos.1 pos.2 then some ⟨content, pos⟩ else none
  | _ => none

lemma append_cap_aux {α : Type} (xs : List α) (A : Bool) (r : α) (cap : ℕ) :
    (if A && decide (xs.length < cap) then xs ++ [r] else xs) =
      xs ++ (if A then some r else none : Option α).elim []
        (fun r => if xs.length < cap then [r] else []) := by
  cases A <;> by_cases h : xs.length < cap <;> simp [h]

lemma append_nocap_aux {α : Type} (xs : List α) (A : Bool) (r : α) :
    (if A then xs ++ [r] else xs) =
      xs ++ (if A then some r else none : Option α).elim [] (fun r => [r]) := by
  cases A <;> simp

lemma processEntity_polylines (st : AnalyzerState) (e : Entity) :
    (processEntity st e).polylines =
      st.polylines ++ (polySel e).elim []
        (fun r => if st.polylines.length < 2 then [r] else []) := by
  cases e with
  | lwpolyline pts closed =>
      simp only [processEntity, polySel, polyAccept]
      split
      · simp only [apply_ite AnalyzerState.polylines]
        exact append_cap_aux st.polylines _ _ 2
      · simp
  | circle c r =>
      simp only [processEntity, polySel]
      split <;> simp
  | text content pos =>
      simp only [processEntity, polySel]
      split <;> simp
  | other => simp [processEntity, polySel]

lemma processEntity_circles (st : AnalyzerState) (e : Entity) :
    (processEntity st e).circles =
      st.circles ++ (circSel e).elim []
        (fun r => if st.circles.length < 4 then [r] else []) := by
  cases e with
  | lwpolyline pts closed =>
      simp only [processEntity, circSel]
      split
      · split <;> simp
      · simp
  | circle c r =>
      simp only [processEntity, circSel]
      simp only [apply_ite AnalyzerState.circles]
      exact append_cap_aux st.circles _ _ 4
  | text content pos =>
      simp only [processEntity, circSel]
      split <;> simp
  | other => simp [processEntity, circSel]

lemma processEntity_texts (st : AnalyzerState) (e : Entity) :
    (processEntity st e).texts =
      st.texts ++ (textSel e).elim [] (fun r => [r]) := by
  cases e with
  | lwpolyline pts closed =>
      simp only [processEntity, textSel]
      split
      · split <;> simp
      · simp
  | circle c r =>
      simp only [processEntity, textSel]
      split <;> simp
  | text content pos =>
      simp only [processEntity, textSel]
      simp only [apply_ite AnalyzerState.texts]
      exact append_nocap_aux st.texts _ _
  | other => simp [processEntity, textSel]

lemma foldl_processEntity_polylines (es : List Entity) (st : AnalyzerState) :
    (List.foldl processEntity st es).polylines =
      st.polylines ++ (es.filterMap polySel).take (2 - st.polylines.length) := by
  induction es generalizing st with
  | nil => simp
  | cons e es ih =>
      rw [List.foldl_cons, ih, processEntity_polylines]
      cases hp : polySel e with
      | none => simp [List.filterMap_cons, hp]
      | some r =>
          by_cases hlen : st.polylines.length < 2
          · have : 2 - st.polylines.length = (2 - (st.polylines.length + 1)) + 1 := by omega
            simp [List.filterMap_cons, hp, hlen, this]
          · have h0 : 2 - st.polylines.length = 0 := by omega
            simp [List.filterMap_cons, hp, hlen, h0]

lemma foldl_processEntity_circles (es : List Entity) (st : AnalyzerState) :
    (List.foldl processEntity st es).circles =
      st.circles ++ (es.filterMap circSel).take (4 - st.circles.length) := by
  induction es generalizing st with
  | nil => simp
  | cons e es ih =>
      rw [List.foldl_cons, ih, processEntity_circles]
      cases hc : circSel e with
      | none => simp [List.filterMap_cons, hc]
      | some r =>
          by_cases hlen : st.circles.length < 4
          · have : 4 - st.circles.length = (4 - (st.circles.length + 1)) + 1 := by omega
            simp [List.filterMap_cons, hc, hlen, this]
          · have h0 : 4 - st.circles.length = 0 := by omega
            simp [List.filterMap_cons, hc, hlen, h0]

lemma foldl_processEntity_texts (es : List Entity) (st : AnalyzerState) :
    (List.foldl processEntity st es).texts = st.texts ++ es.filterMap textSel := by
  induction es generalizing st with
  | nil => simp
  | cons e es ih =>
      rw [List.foldl_cons, ih, processEntity_texts]
      cases ht : textSel e <;> simp [List.filterMap_cons, ht]

/-- The single forward pass selects the first-2 accepted polylines and the
first-4 accepted circles, in document order. -/
lemma analyze_file_spec (es : List Entity) :
    (analyze_file es).polylines = (es.filterMap polySel).take 2
      ∧ (analyze_file es).circles = (es.filterMap circSel).take 4
      ∧ (analyze_file es).texts = es.filterMap textSel := by
  refine ⟨?_, ?_, ?_⟩
  · simpa [emptyState] using foldl_processEntity_polylines es emptyState
  · simpa [emptyState] using foldl_processEntity_circles es emptyState
  · simpa [emptyState] using foldl_processEntity_texts es emptyState

/-! ## Concrete inputs used by the claims -/

/-- Scenario A of the specification: one circle at (100, 200) with radius 10
and one closed square polyline (0,0),(100,0),(100,100),(0,100), run through
the analyzer. -/
def scenarioA : AnalyzerState :=
  analyze_file
    [Entity.circle (⟨100, 0⟩, ⟨200, 0⟩) ⟨10, 0⟩,
     Entity.lwpolyline
       [(⟨0, 0⟩, ⟨0, 0⟩), (⟨100, 0⟩, ⟨0, 0⟩), (⟨100, 0⟩, ⟨100, 0⟩), (⟨0, 0⟩, ⟨100, 0⟩)] true]

/-- A closed polyline whose first four points are in-envelope (a 100×100
square) and whose fifth point (2600, 100) lies outside the machine
envelope (x > 2500). -/
def outlierPolyline : Entity :=
  Entity.lwpolyline
    [(⟨0, 0⟩, ⟨0, 0⟩), (⟨100, 0⟩, ⟨0, 0⟩), (⟨100, 0⟩, ⟨100, 0⟩), (⟨0, 0⟩, ⟨100, 0⟩),
     (⟨2600, 0⟩, ⟨100, 0⟩)] true

/-- Five machinable circles (centers in-envelope, radius 10) in document
order. -/
def fiveCircles : List Entity :=
  [Entity.circle (⟨10, 0⟩, ⟨10, 0⟩) ⟨10, 0⟩,
   Entity.circle (⟨20, 0⟩, ⟨20, 0⟩) ⟨10, 0⟩,
   Entity.circle (⟨30, 0⟩, ⟨30, 0⟩) ⟨10, 0⟩,
   Entity.circle (⟨40, 0⟩, ⟨40, 0⟩) ⟨10, 0⟩,
   Entity.circle (⟨50, 0⟩, ⟨50, 0⟩) ⟨10, 0⟩]

/-! ## Claims -/

/-- Claim C1: for the machining set of Scenario A (one circle at
(100, 200) radius 10, one closed square polyline), sequenced under the
default parameters (drill_first), the generated program is exactly these
22 lines: header; 4-line drill tool-change; 3-line drill cycle (position,
plunge to 7.0, retract to 48.0); 4-line cutter tool-change; 7-line cut
cycle (position to (0.0,0.0), plunge to 18.0, three feed moves, one
closing move, retract to 48.0); 3-line footer. -/
theorem claim_C1 :
    generate_gcode default_params scenarioA =
      ["G54",
       "M6 T2", "M03 S18000", "G43 H2", "G00 Z48.0",
       "G00 X100.0 Y200.0", "G01 Z7.0 F3000", "G00 Z48.0",
       "M6 T1", "M03 S18000", "G43 H1", "G00 Z48.0",
       "G00 X0.0 Y0.0", "G01 Z18.0 F3000",
       "G01 X100.0 Y0.0 F12000", "G01 X100.0 Y100.0 F12000", "G01 X0.0 Y100.0 F12000",
       "G01 X0.0 Y0.0", "G00 Z48.0",
       "M05", "G53 X100.0Y2850.0", "M30"]
    ∧ (generate_gcode default_params scenarioA).length = 22 := by
  constructor
  · decide
  · decide

/-- Claim C4: after every step of the single forward pass (i.e. for every
prefix `es.take k` of the input sequence), the machining set holds at most
2 polylines and at most 4 circles, and each is exactly the first-2
(resp. first-4) accepted records of the prefix in document order. -/
theorem claim_C4 (es : List Entity) (k : ℕ) :
    (analyze_file (es.take k)).polylines.length ≤ 2
    ∧ (analyze_file (es.take k)).circles.length ≤ 4
    ∧ (analyze_file (es.take k)).polylines = ((es.take k).filterMap polySel).take 2
    ∧ (analyze_file (es.take k)).circles = ((es.take k).filterMap circSel).take 4 := by
  obtain ⟨hp, hc, -⟩ := analyze_file_spec (es.take k)
  refine ⟨?_, ?_, hp, hc⟩
  · rw [hp]; simp
  · rw [hc]; simp

/-- Claim C5: whenever the machinable circles of the document, in document
order, are c1, c2, c3, c4, c5, …, the machining set's circles are exactly
the first four of them — a greedy prefix in document order, not a
largest-4 selection. -/
theorem claim_C5 (es : List Entity) (c1 c2 c3 c4 c5 : CircRec) (rest : List CircRec)
    (h : es.filterMap circSel = c1 :: c2 :: c3 :: c4 :: c5 :: rest) :
    (analyze_file es).circles = [c1, c2, c3, c4] := by
  obtain ⟨-, hc, -⟩ := analyze_file_spec es
  rw [hc, h]
  rfl

/-- A circle record with integer center and radius. -/
def mkCircle (x y r : ℤ) : CircRec := ⟨(⟨x, 0⟩, ⟨y, 0⟩), ⟨r, 0⟩⟩

/-- Witness for C5: five concrete machinable circles; the filter keeps
exactly the first four. -/
theorem claim_C5_witness :
    fiveCircles.filterMap circSel =
      [mkCircle 10 10 10, mkCircle 20 20 10, mkCircle 30 30 10,
       mkCircle 40 40 10, mkCircle 50 50 10]
    ∧ (analyze_file fiveCircles).circles =
      [mkCircle 10 10 10, mkCircle 20 20 10, mkCircle 30 30 10, mkCircle 40 40 10] :=
  ⟨by decide,
   claim_C5 fiveCircles (mkCircle 10 10 10) (mkCircle 20 20 10) (mkCircle 30 30 10)
     (mkCircle 40 40 10) (mkCircle 50 50 10) [] (by decide)⟩

/-- Counterexample to claim C2 as stated: a polyline containing the
out-of-envelope point (2600, 100) is nevertheless selected into the
machining set (its remaining four points form a valid 100×100 square). -/
theorem claim_C2_counterexample :
    is_valid_coordinate ⟨2600, 0⟩ ⟨100, 0⟩ = false
    ∧ (analyze_file [outlierPolyline]).polylines.length = 1 := by
  constructor
  · decide
  · decide

/-- Claim C2 (amended): circles and texts whose defining point is
out-of-envelope are excluded entirely; a polyline's out-of-envelope points
are dropped from its point list, and the polyline is retained precisely
when the remaining points (at least 3 of them) pass the machinability
checks — so every record in the machining set carries only in-envelope
points, but a polyline that contained an out-of-envelope point may still
be selected. -/
theorem claim_C2 (es : List Entity) :
    (∀ c ∈ (analyze_file es).circles, is_valid_coordinate c.center.1 c.center.2 = true)
    ∧ (∀ t ∈ (analyze_file es).texts, is_valid_coordinate t.position.1 t.position.2 = true)
    ∧ (∀ pl ∈ (analyze_file es).polylines,
        3 ≤ pl.points.length ∧ ∀ pt ∈ pl.points, is_valid_coordinate pt.1 pt.2 = true) := by
  obtain ⟨hp, hc, ht⟩ := analyze_file_spec es
  refine ⟨?_, ?_, ?_⟩
  · intro c hcmem
    rw [hc] at hcmem
    obtain ⟨e, -, he⟩ := List.mem_filterMap.mp (List.mem_of_mem_take hcmem)
    cases e with
    | circle cen r =>
        simp only [circSel] at he
        split at he
        next hcond =>
          simp only [Bool.and_eq_true] at hcond
          cases he
          exact hcond.1.1
        next => exact Option.noConfusion he
    | lwpolyline pts closed => exact Option.noConfusion he
    | text content pos => exact Option.noConfusion he
    | other => exact Option.noConfusion he
  · intro t htmem
    rw [ht] at htmem
    obtain ⟨e, -, he⟩ := List.mem_filterMap.mp htmem
    cases e with
    | text content pos =>
        simp only [textSel] at he
        split at he
        next hcond =>
          cases he
          exact hcond
        next => exact Option.noConfusion he
    | lwpolyline pts closed => exact Option.noConfusion he
    | circle cen r => exact Option.noConfusion he
    | other => exact Option.noConfusion he
  · intro pl hplmem
    rw [hp] at hplmem
    obtain ⟨e, -, he⟩ := List.mem_filterMap.mp (List.mem_of_mem_take hplmem)
    cases e with
    | lwpolyline pts closed =>
        simp only [polySel, polyAccept] at he
        split at he
        next hlen =>
          split at he
          next =>
            cases he
            refine ⟨hlen, ?_⟩
            intro pt hpt
            exact (List.mem_filter.mp hpt).2
          next => exact Option.noConfusion he
        next => exact Option.noConfusion he
    | circle cen r => exact Option.noConfusion he
    | text content pos => exact Option.noConfusion he
    | other => exact Option.noConfusion he

/-- Witness for C2 (amended): instantiated on the outlier polyline; the
selected record's points are all in-envelope. -/
theorem claim_C2_witness :
    is_valid_coordinate ⟨100, 0⟩ ⟨0, 0⟩ = true := by
  have h := (claim_C2 [outlierPolyline]).2.2
  exact (h ⟨[(⟨0, 0⟩, ⟨0, 0⟩), (⟨100, 0⟩, ⟨0, 0⟩), (⟨100, 0⟩, ⟨100, 0⟩), (⟨0, 0⟩, ⟨100, 0⟩)],
      true, ⟨10000, 0⟩⟩ (by decide)).2 (⟨100, 0⟩, ⟨0, 0⟩) (by decide)

/-- Claim C6: for every machining set and parameters, the drill-first
program and the cut-first program are built from the same header, footer,
drilling block and cutting block, with only the order of the two blocks
swapped; each block is emitted contiguously (never interleaved). -/
theorem claim_C6 (a : AnalyzerState) (p : Params) :
    generate_gcode { p with process_order := "drill_first" } a =
      generate_header ++ (drilling_block p a.circles ++ cutting_block p a.polylines)
        ++ generate_footer
    ∧ generate_gcode { p with process_order := "cut_first" } a =
      generate_header ++ (cutting_block p a.polylines ++ drilling_block p a.circles)
        ++ generate_footer := by
  constructor
  · rfl
  · rfl

/-- Claim C9: sequencing equal machining sets under equal parameters
yields byte-identical program text (two-run determinism). -/
theorem claim_C9 (p₁ p₂ : Params) (a₁ a₂ : AnalyzerState) (hp : p₁ = p₂) (ha : a₁ = a₂) :
    programText p₁ a₁ = programText p₂ a₂ := by
  rw [hp, ha]

/-- Witness for C9: two runs on Scenario A under the defaults. -/
theorem claim_C9_witness :
    programText default_params scenarioA = programText default_params scenarioA :=
  claim_C9 default_params default_params scenarioA scenarioA rfl rfl

/-! ## Claim C8: persistence is not all-or-nothing -/

lemma str_append_empty (s : String) : s ++ "" = s :=
  String.ext_iff.mpr (List.append_nil s.data)

lemma str_append_assoc (a b c : String) : a ++ b ++ c = a ++ (b ++ c) :=
  String.ext_iff.mpr (List.append_assoc a.data b.data c.data)

lemma write_lines_spec (lines : List String) (budget : ℕ) (acc : String) :
    write_lines lines budget acc =
      (decide (lines.length ≤ budget), acc ++ linesText (lines.take budget)) := by
  induction lines generalizing budget acc with
  | nil => simp [write_lines, linesText, str_append_empty]
  | cons l ls ih =>
      cases budget with
      | zero => simp [write_lines, linesText, str_append_empty]
      | succ b =>
          rw [write_lines, ih]
          have hd : (ls.length + 1 ≤ b + 1) = (ls.length ≤ b) :=
            propext (by omega)
          simp [linesText, hd, str_append_assoc]

/-- Counterexample to claim C8 as stated: persisting the Scenario A
program with an I/O failure after the first successful line write reports
failure but leaves an incomplete file behind — neither empty nor the complete
program. -/
theorem claim_C8_counterexample :
    (persist_program (generate_gcode default_params scenarioA) 1).1 = false
    ∧ (persist_program (generate_gcode default_params scenarioA) 1).2 ≠ ""
    ∧ (persist_program (generate_gcode default_params scenarioA) 1).2
        ≠ programText default_params scenarioA := by
  refine ⟨?_, ?_, ?_⟩
  · decide
  · decide
  · decide

/-- Claim C8 (amended): the per-line write loop is not atomic — when
persistence fails after `budget` successful writes, the destination holds
exactly the prefix of the program written so far (possibly a proper,
non-empty incomplete file); success is reported precisely when every line was
written. -/
theorem claim_C8 (lines : List String) (budget : ℕ) :
    persist_program lines budget =
      (decide (lines.length ≤ budget), linesText (lines.take budget)) := by
  rw [persist_program, write_lines_spec]
  congr 1

/-! ## Claim C7: safe-height retracts

A scan over the emitted lines tracking whether the tool is down: a plunge
(`G01 Z…`) lowers it, the safe-height retract line raises it, and a rapid
XY positioning move (`G00 X…`) is only legal with the tool up.  `scanS`
returns `none` on a violation, and `some down` with the final tool state
otherwise. -/

/-- The safe-height retract line emitted after every cycle and at the end
of every tool change (src/app.py lines 173, 182, 208). -/
def retract_line (p : Params) : String := "G00 Z" ++ pyStr p.safe_height ++ ".0"

/-- Scan the program lines, tracking the tool-down state; `none` means a
rapid XY positioning move was issued while the tool was down. -/
def scanS (p : Params) : Bool → List String → Option Bool
  | down, [] => some down
  | down, l :: ls =>
      if l = retract_line p then scanS p false ls
      else if "G01 Z".data.isPrefixOf l.data then scanS p true ls
      else if "G00 X".data.isPrefixOf l.data then
        if down then none else scanS p false ls
      else scanS p down ls

lemma ne_of_data_ne {s t : String} (h : s.data ≠ t.data) : s ≠ t :=
  fun he => h (congrArg String.data he)

lemma g54_ne_retract (p : Params) : "G54" ≠ retract_line p := by
  apply ne_of_data_ne
  show ['G', '5', '4'] ≠
    'G' :: '0' :: '0' :: ' ' :: 'Z' :: ((pyStr p.safe_height).data ++ ['.', '0'])
  simp

lemma m6_ne_retract (p : Params) (s : String) : ("M6 T" ++ s) ≠ retract_line p := by
  apply ne_of_data_ne
  show 'M' :: '6' :: ' ' :: 'T' :: s.data ≠
    'G' :: '0' :: '0' :: ' ' :: 'Z' :: ((pyStr p.safe_height).data ++ ['.', '0'])
  simp

lemma m03_ne_retract (p : Params) (s : String) : ("M03 S" ++ s) ≠ retract_line p := by
  apply ne_of_data_ne
  show 'M' :: '0' :: '3' :: ' ' :: 'S' :: s.data ≠
    'G' :: '0' :: '0' :: ' ' :: 'Z' :: ((pyStr p.safe_height).data ++ ['.', '0'])
  simp

lemma g43_ne_retract (p : Params) (s : String) : ("G43 H" ++ s) ≠ retract_line p := by
  apply ne_of_data_ne
  show 'G' :: '4' :: '3' :: ' ' :: 'H' :: s.data ≠
    'G' :: '0' :: '0' :: ' ' :: 'Z' :: ((pyStr p.safe_height).data ++ ['.', '0'])
  simp

lemma g00x_ne_retract (p : Params) (s : String) : ("G00 X" ++ s) ≠ retract_line p := by
  apply ne_of_data_ne
  show 'G' :: '0' :: '0' :: ' ' :: 'X' :: s.data ≠
    'G' :: '0' :: '0' :: ' ' :: 'Z' :: ((pyStr p.safe_height).data ++ ['.', '0'])
  simp

lemma g01z_ne_retract (p : Params) (s : String) : ("G01 Z" ++ s) ≠ retract_line p := by
  apply ne_of_data_ne
  show 'G' :: '0' :: '1' :: ' ' :: 'Z' :: s.data ≠
    'G' :: '0' :: '0' :: ' ' :: 'Z' :: ((pyStr p.safe_height).data ++ ['.', '0'])
  simp

lemma g01x_ne_retract (p : Params) (s : String) : ("G01 X" ++ s) ≠ retract_line p := by
  apply ne_of_data_ne
  show 'G' :: '0' :: '1' :: ' ' :: 'X' :: s.data ≠
    'G' :: '0' :: '0' :: ' ' :: 'Z' :: ((pyStr p.safe_height).data ++ ['.', '0'])
  simp

lemma m05_ne_retract (p : Params) : "M05" ≠ retract_line p := by
  apply ne_of_data_ne
  show ['M', '0', '5'] ≠
    'G' :: '0' :: '0' :: ' ' :: 'Z' :: ((pyStr p.safe_height).data ++ ['.', '0'])
  simp

lemma g53_ne_retract (p : Params) : "G53 X100.0Y2850.0" ≠ retract_line p := by
  apply ne_of_data_ne
  show 'G' :: '5' :: '3' :: ' ' :: 'X' :: "100.0Y2850.0".data ≠
    'G' :: '0' :: '0' :: ' ' :: 'Z' :: ((pyStr p.safe_height).data ++ ['.', '0'])
  simp

lemma m30_ne_retract (p : Params) : "M30" ≠ retract_line p := by
  apply ne_of_data_ne
  show ['M', '3', '0'] ≠
    'G' :: '0' :: '0' :: ' ' :: 'Z' :: ((pyStr p.safe_height).data ++ ['.', '0'])
  simp

lemma scanS_cons_skip (p : Params) (d : Bool) (l : String) (ls : List String)
    (h1 : l ≠ retract_line p)
    (h2 : ("G01 Z".data.isPrefixOf l.data) = false)
    (h3 : ("G00 X".data.isPrefixOf l.data) = false) :
    scanS p d (l :: ls) = scanS p d ls := by
  simp [scanS, h1, h2, h3]

lemma scanS_cons_retract (p : Params) (d : Bool) (ls : List String) :
    scanS p d (retract_line p :: ls) = scanS p false ls := by
  simp [scanS]

lemma g01z_self_isPrefixOf (s : String) :
    ("G01 Z".data.isPrefixOf ("G01 Z" ++ s).data) = true := by
  simp [List.isPrefixOf]

lemma g00x_self_isPrefixOf (s : String) :
    ("G00 X".data.isPrefixOf ("G00 X" ++ s).data) = true := by
  simp [List.isPrefixOf]

lemma scanS_cons_plunge (p : Params) (d : Bool) (s : String) (ls : List String) :
    scanS p d (("G01 Z" ++ s) :: ls) = scanS p true ls := by
  simp [scanS, g01z_ne_retract p s, g01z_self_isPrefixOf s]

lemma scanS_cons_pos (p : Params) (d : Bool) (s : String) (ls : List String) :
    scanS p d (("G00 X" ++ s) :: ls) = if d then none else scanS p false ls := by
  simp [scanS, g00x_ne_retract p s,
    show ("G01 Z".data.isPrefixOf ("G00 X" ++ s).data) = false from rfl,
    g00x_self_isPrefixOf s]

lemma scanS_cons_g54 (p : Params) (d : Bool) (ls : List String) :
    scanS p d ("G54" :: ls) = scanS p d ls :=
  scanS_cons_skip p d _ ls (g54_ne_retract p) rfl rfl

lemma scanS_cons_m6 (p : Params) (d : Bool) (s : String) (ls : List String) :
    scanS p d (("M6 T" ++ s) :: ls) = scanS p d ls :=
  scanS_cons_skip p d _ ls (m6_ne_retract p s) rfl rfl

lemma scanS_cons_m03 (p : Params) (d : Bool) (s : String) (ls : List String) :
    scanS p d (("M03 S" ++ s) :: ls) = scanS p d ls :=
  scanS_cons_skip p d _ ls (m03_ne_retract p s) rfl rfl

lemma scanS_cons_g43 (p : Params) (d : Bool) (s : String) (ls : List String) :
    scanS p d (("G43 H" ++ s) :: ls) = scanS p d ls :=
  scanS_cons_skip p d _ ls (g43_ne_retract p s) rfl rfl

lemma scanS_cons_g01x (p : Params) (d : Bool) (s : String) (ls : List String) :
    scanS p d (("G01 X" ++ s) :: ls) = scanS p d ls :=
  scanS_cons_skip p d _ ls (g01x_ne_retract p s) rfl rfl

lemma scanS_cons_m05 (p : Params) (d : Bool) (ls : List String) :
    scanS p d ("M05" :: ls) = scanS p d ls :=
  scanS_cons_skip p d _ ls (m05_ne_retract p) rfl rfl

lemma scanS_cons_g53 (p : Params) (d : Bool) (ls : List String) :
    scanS p d ("G53 X100.0Y2850.0" :: ls) = scanS p d ls :=
  scanS_cons_skip p d _ ls (g53_ne_retract p) rfl rfl

lemma scanS_cons_m30 (p : Params) (d : Bool) (ls : List String) :
    scanS p d ("M30" :: ls) = scanS p d ls :=
  scanS_cons_skip p d _ ls (m30_ne_retract p) rfl rfl

lemma scanS_append (p : Params) (xs ys : List String) (d : Bool) :
    scanS p d (xs ++ ys) = (scanS p d xs).bind fun d2 => scanS p d2 ys := by
  induction xs generalizing d with
  | nil => simp [scanS]
  | cons l xs ih =>
      rw [List.cons_append, scanS, scanS]
      split_ifs <;> simp [ih]

lemma scanS_tool_change (p : Params) (d : Bool) (n : ℕ) (s : PyNum) :
    scanS p d (generate_tool_change p n s) = some false := by
  show scanS p d
    (("M6 T" ++ natStr n) :: ("M03 S" ++ pyStr s) :: ("G43 H" ++ natStr n)
      :: retract_line p :: []) = some false
  rw [scanS_cons_m6, scanS_cons_m03, scanS_cons_g43, scanS_cons_retract]
  rfl

lemma scanS_drill_cycle (p : Params) (x y : PyFloat) (dep : PyNum) (d : Bool) :
    scanS p d (generate_drill_hole p x y dep) = if d then none else some false := by
  show scanS p d
    (("G00 X" ++ (fmt1 x ++ " Y" ++ fmt1 y))
      :: ("G01 Z" ++ (fmt1 dep.val ++ " F3000")) :: retract_line p :: []) = _
  rw [scanS_cons_pos]
  cases d with
  | true => rfl
  | false =>
      rw [if_neg (by simp), if_neg (by simp), scanS_cons_plunge, scanS_cons_retract]
      rfl

lemma scanS_cut_moves (p : Params) (d : Bool) (rest : List (PyFloat × PyFloat))
    (ls : List String) :
    scanS p d
      ((rest.map fun pt => "G01 X" ++ fmt1 pt.1 ++ " Y" ++ fmt1 pt.2 ++ " F"
          ++ pyStr p.feed_rate) ++ ls)
      = scanS p d ls := by
  induction rest with
  | nil => rfl
  | cons pt rest ih =>
      rw [List.map_cons, List.cons_append,
        show "G01 X" ++ fmt1 pt.1 ++ " Y" ++ fmt1 pt.2 ++ " F" ++ pyStr p.feed_rate
          = "G01 X" ++ (fmt1 pt.1 ++ " Y" ++ fmt1 pt.2 ++ " F" ++ pyStr p.feed_rate) from rfl,
        scanS_cons_g01x]
      exact ih

lemma scanS_cut_cycle (p : Params) (pts : List (PyFloat × PyFloat)) (c : Bool) :
    scanS p false (generate_cut_polyline p pts c) = some false := by
  rw [generate_cut_polyline.eq_def]
  split
  · rfl
  · match pts with
    | [] => rfl
    | start :: rest =>
        show scanS p false
          (("G00 X" ++ (fmt1 start.1 ++ " Y" ++ fmt1 start.2))
            :: ("G01 Z" ++ (fmt1 p.cut_depth.val ++ " F3000"))
            :: (((rest.map fun pt => "G01 X" ++ fmt1 pt.1 ++ " Y" ++ fmt1 pt.2 ++ " F"
                  ++ pyStr p.feed_rate)
                ++ (if c && decide (2 < (start :: rest).length) then
                      ["G01 X" ++ fmt1 start.1 ++ " Y" ++ fmt1 start.2]
                    else []))
              ++ [retract_line p])) = some false
        rw [List.append_assoc, scanS_cons_pos, if_neg (by simp), scanS_cons_plunge,
          scanS_cut_moves]
        split
        · show scanS p true
            (("G01 X" ++ (fmt1 start.1 ++ " Y" ++ fmt1 start.2))
              :: retract_line p :: []) = some false
          rw [scanS_cons_g01x, scanS_cons_retract]
          rfl
        · show scanS p true (retract_line p :: []) = some false
          rw [scanS_cons_retract]
          rfl

lemma scanS_drill_flat (p : Params) (dep : PyNum) (cs : List CircRec) :
    scanS p false
      ((cs.map fun c => generate_drill_hole p c.center.1 c.center.2 dep).flatten)
      = some false := by
  induction cs with
  | nil => rfl
  | cons cr cs ih =>
      rw [List.map_cons, List.flatten_cons, scanS_append, scanS_drill_cycle,
        if_neg (by simp), Option.bind]
      exact ih

lemma scanS_cut_flat (p : Params) (pls : List PolyRec) :
    scanS p false
      ((pls.map fun pl => generate_cut_polyline p pl.points pl.closed).flatten)
      = some false := by
  induction pls with
  | nil => rfl
  | cons pl pls ih =>
      rw [List.map_cons, List.flatten_cons, scanS_append, scanS_cut_cycle, Option.bind]
      exact ih

lemma scanS_drilling_block (p : Params) (cs : List CircRec) :
    scanS p false (drilling_block p cs) = some false := by
  rw [drilling_block]
  split
  · rfl
  · rw [scanS_append, scanS_tool_change, Option.bind, scanS_drill_flat]

lemma scanS_cutting_block (p : Params) (pls : List PolyRec) :
    scanS p false (cutting_block p pls) = some false := by
  rw [cutting_block]
  split
  · rfl
  · rw [scanS_append, scanS_tool_change, Option.bind, scanS_cut_flat]

lemma scanS_footer (p : Params) (d : Bool) :
    scanS p d generate_footer = some d := by
  show scanS p d ("M05" :: "G53 X100.0Y2850.0" :: "M30" :: []) = some d
  rw [scanS_cons_m05, scanS_cons_g53, scanS_cons_m30]
  rfl

/-- Claim C7: in every generated program, rapid XY positioning only ever
happens with the tool retracted to the safe height (the scan `scanS` never
reports a violation and ends with the tool up), and every drill cycle and
every (nonempty) cut cycle ends with the rapid retract to
`safe_retract_height`. -/
theorem claim_C7 (a : AnalyzerState) (p : Params) :
    scanS p false (generate_gcode p a) = some false
    ∧ (∀ x y dep, (generate_drill_hole p x y dep).getLast? = some (retract_line p))
    ∧ (∀ pts c, 2 ≤ pts.length →
        (generate_cut_polyline p pts c).getLast? = some (retract_line p)) := by
  refine ⟨?_, ?_, ?_⟩
  · rw [generate_gcode, scanS_append, scanS_append,
      show generate_header = "G54" :: [] from rfl, scanS_cons_g54 p false,
      show scanS p false [] = some false from rfl, Option.bind]
    split
    · rw [scanS_append, scanS_drilling_block, Option.bind, scanS_cutting_block,
        Option.bind, scanS_footer]
    · rw [scanS_append, scanS_cutting_block, Option.bind, scanS_drilling_block,
        Option.bind, scanS_footer]
  · intro x y dep
    rfl
  · intro pts c hlen
    rw [generate_cut_polyline.eq_def, if_neg (by omega)]
    match pts, hlen with
    | start :: rest, _ =>
        exact List.getLast?_concat _

/-- Witness for C7: Scenario A under the defaults; the square cut cycle
(4 points) ends with the retract line. -/
theorem claim_C7_witness :
    scanS default_params false (generate_gcode default_params scenarioA) = some false
    ∧ (generate_cut_polyline default_params
        [(⟨0, 0⟩, ⟨0, 0⟩), (⟨100, 0⟩, ⟨0, 0⟩), (⟨100, 0⟩, ⟨100, 0⟩), (⟨0, 0⟩, ⟨100, 0⟩)]
        true).getLast? = some (retract_line default_params) :=
  ⟨(claim_C7 scenarioA default_params).1,
   (claim_C7 scenarioA default_params).2.2
     [(⟨0, 0⟩, ⟨0, 0⟩), (⟨100, 0⟩, ⟨0, 0⟩), (⟨100, 0⟩, ⟨100, 0⟩), (⟨0, 0⟩, ⟨100, 0⟩)]
     true (by decide)⟩

/-! ## Claim C10: plunges use the literal feed F3000 -/

lemma suffix_F3000 (s : String) :
    (" F3000".data.isSuffixOf (s ++ " F3000").data) = true := by
  show (" F3000".data.isSuffixOf (String.mk (s.data ++ [' ', 'F', '3', '0', '0', '0'])).data)
    = true
  simp [List.isSuffixOf, List.isPrefixOf]

/-- The property asserted of every emitted line: a plunge (a line starting
`G01 Z`) carries the literal feed token `F3000` at its end. -/
def plungeF3000 (l : String) : Prop :=
  ("G01 Z".data.isPrefixOf l.data) = true → (" F3000".data.isSuffixOf l.data) = true

lemma plungeF3000_of_false {l : String}
    (h : ("G01 Z".data.isPrefixOf l.data) = false) : plungeF3000 l := by
  intro hpre
  rw [h] at hpre
  exact Bool.noConfusion hpre

lemma plunge_tool_change (p : Params) (n : ℕ) (s : PyNum) :
    ∀ l ∈ generate_tool_change p n s, plungeF3000 l := by
  intro l hl
  simp only [generate_tool_change, List.mem_cons, List.not_mem_nil, or_false] at hl
  rcases hl with rfl | rfl | rfl | rfl
  · exact plungeF3000_of_false rfl
  · exact plungeF3000_of_false rfl
  · exact plungeF3000_of_false rfl
  · exact plungeF3000_of_false rfl

lemma plunge_drill (p : Params) (x y : PyFloat) (dep : PyNum) :
    ∀ l ∈ generate_drill_hole p x y dep, plungeF3000 l := by
  intro l hl
  simp only [generate_drill_hole, List.mem_cons, List.not_mem_nil, or_false] at hl
  rcases hl with rfl | rfl | rfl
  · exact plungeF3000_of_false rfl
  · intro hpre
    exact suffix_F3000 ("G01 Z" ++ fmt1 dep.val)
  · exact plungeF3000_of_false rfl

lemma plunge_cut (p : Params) (pts : List (PyFloat × PyFloat)) (c : Bool) :
    ∀ l ∈ generate_cut_polyline p pts c, plungeF3000 l := by
  intro l hl
  rw [generate_cut_polyline.eq_def] at hl
  split at hl
  · exact absurd hl (List.not_mem_nil l)
  · match pts, hl with
    | start :: rest, hl =>
        simp only [List.mem_append, List.mem_cons, List.not_mem_nil, or_false,
          List.mem_map] at hl
        rcases hl with (((rfl | rfl) | ⟨pt, -, rfl⟩) | hif) | rfl
        · exact plungeF3000_of_false rfl
        · intro hpre
          exact suffix_F3000 ("G01 Z" ++ fmt1 p.cut_depth.val)
        · exact plungeF3000_of_false rfl
        · split at hif
          · simp only [List.mem_cons, List.not_mem_nil, or_false] at hif
            subst hif
            exact plungeF3000_of_false rfl
          · exact absurd hif (List.not_mem_nil l)
        · exact plungeF3000_of_false rfl

lemma plunge_drilling_block (p : Params) (cs : List CircRec) :
    ∀ l ∈ drilling_block p cs, plungeF3000 l := by
  intro l hl
  rw [drilling_block] at hl
  split at hl
  · exact absurd hl (List.not_mem_nil l)
  · rcases List.mem_append.mp hl with h | h
    · exact plunge_tool_change p 2 p.drill_speed l h
    · obtain ⟨piece, hpiece, hlp⟩ := List.mem_flatten.mp h
      obtain ⟨c, -, rfl⟩ := List.mem_map.mp hpiece
      exact plunge_drill p c.center.1 c.center.2 p.drill_depth l hlp

lemma plunge_cutting_block (p : Params) (pls : List PolyRec) :
    ∀ l ∈ cutting_block p pls, plungeF3000 l := by
  intro l hl
  rw [cutting_block] at hl
  split at hl
  · exact absurd hl (List.not_mem_nil l)
  · rcases List.mem_append.mp hl with h | h
    · exact plunge_tool_change p 1 p.cutter_speed l h
    · obtain ⟨piece, hpiece, hlp⟩ := List.mem_flatten.mp h
      obtain ⟨pl, -, rfl⟩ := List.mem_map.mp hpiece
      exact plunge_cut p pl.points pl.closed l hlp

lemma plunge_gcode (p : Params) (a : AnalyzerState) :
    ∀ l ∈ generate_gcode p a, plungeF3000 l := by
  intro l hl
  rw [generate_gcode] at hl
  rcases List.mem_append.mp hl with h | h
  · rcases List.mem_append.mp h with h1 | h2
    · simp only [generate_header, List.mem_cons, List.not_mem_nil, or_false] at h1
      subst h1
      exact plungeF3000_of_false rfl
    · split at h2
      · rcases List.mem_append.mp h2 with h3 | h3
        · exact plunge_drilling_block p a.circles l h3
        · exact plunge_cutting_block p a.polylines l h3
      · rcases List.mem_append.mp h2 with h3 | h3
        · exact plunge_cutting_block p a.polylines l h3
        · exact plunge_drilling_block p a.circles l h3
  · simp only [generate_footer, List.mem_cons, List.not_mem_nil, or_false] at h
    rcases h with rfl | rfl | rfl
    · exact plungeF3000_of_false rfl
    · exact plungeF3000_of_false rfl
    · exact plungeF3000_of_false rfl

/-- The relation between corresponding lines of two programs generated
with feed rates `f₁` and `f₂`: equal, or an XY cutting move differing only
in the feed token. -/
def feedRel (f₁ f₂ : PyNum) (l₁ l₂ : String) : Prop :=
  l₁ = l₂ ∨ ∃ x y,
    l₁ = "G01 X" ++ fmt1 x ++ " Y" ++ fmt1 y ++ " F" ++ pyStr f₁
    ∧ l₂ = "G01 X" ++ fmt1 x ++ " Y" ++ fmt1 y ++ " F" ++ pyStr f₂

lemma feedRel_refl (f₁ f₂ : PyNum) (l : String) : feedRel f₁ f₂ l l := Or.inl rfl

lemma forall₂_feedRel_same (f₁ f₂ : PyNum) (l : List String) :
    List.Forall₂ (feedRel f₁ f₂) l l :=
  List.forall₂_same.mpr fun x _ => feedRel_refl f₁ f₂ x

lemma cut_cycle_feedRel (p : Params) (f2 : PyNum) (pts : List (PyFloat × PyFloat)) (c : Bool) :
    List.Forall₂ (feedRel p.feed_rate f2)
      (generate_cut_polyline p pts c)
      (generate_cut_polyline { p with feed_rate := f2 } pts c) := by
  rw [generate_cut_polyline.eq_def, generate_cut_polyline.eq_def]
  by_cases hlen : pts.length < 2
  · simp only [if_pos hlen]
    exact List.Forall₂.nil
  · simp only [if_neg hlen]
    match pts with
    | [] => exact List.Forall₂.nil
    | start :: rest =>
        refine List.rel_append (List.rel_append (List.rel_append ?_ ?_) ?_) ?_
        · exact List.Forall₂.cons (feedRel_refl _ _ _)
            (List.Forall₂.cons (feedRel_refl _ _ _) List.Forall₂.nil)
        · clear hlen
          induction rest with
          | nil => exact List.Forall₂.nil
          | cons pt rest ih =>
              refine List.Forall₂.cons (Or.inr ⟨pt.1, pt.2, rfl, rfl⟩) ih
        · split
          · exact List.Forall₂.cons (feedRel_refl _ _ _) List.Forall₂.nil
          · exact List.Forall₂.nil
        · exact List.Forall₂.cons (feedRel_refl _ _ _) List.Forall₂.nil

lemma cut_flat_feedRel (p : Params) (f2 : PyNum) (pls : List PolyRec) :
    List.Forall₂ (feedRel p.feed_rate f2)
      ((pls.map fun pl => generate_cut_polyline p pl.points pl.closed).flatten)
      ((pls.map fun pl =>
          generate_cut_polyline { p with feed_rate := f2 } pl.points pl.closed).flatten) := by
  induction pls with
  | nil => exact List.Forall₂.nil
  | cons pl pls ih =>
      rw [List.map_cons, List.map_cons, List.flatten_cons, List.flatten_cons]
      exact List.rel_append (cut_cycle_feedRel p f2 pl.points pl.closed) ih

lemma cutting_block_feedRel (p : Params) (f2 : PyNum) (pls : List PolyRec) :
    List.Forall₂ (feedRel p.feed_rate f2)
      (cutting_block p pls) (cutting_block { p with feed_rate := f2 } pls) := by
  rw [cutting_block, cutting_block]
  split
  · exact List.Forall₂.nil
  · exact List.rel_append (forall₂_feedRel_same _ _ _) (cut_flat_feedRel p f2 pls)

/-- Claim C10: every plunge line (drill plunge to `drill_depth` and cut
plunge to `cut_depth`) carries the literal feed token `F3000`, independent
of the configured `feed_rate`; changing `feed_rate` changes only the XY
cutting moves between polyline points (all other lines are identical). -/
theorem claim_C10 (a : AnalyzerState) (p : Params) (f2 : PyNum) :
    (∀ l ∈ generate_gcode p a, plungeF3000 l)
    ∧ List.Forall₂ (feedRel p.feed_rate f2)
        (generate_gcode p a) (generate_gcode { p with feed_rate := f2 } a) := by
  refine ⟨plunge_gcode p a, ?_⟩
  rw [generate_gcode, generate_gcode]
  refine List.rel_append (List.rel_append (forall₂_feedRel_same _ _ _) ?_)
    (forall₂_feedRel_same _ _ _)
  rw [show ({ p with feed_rate := f2 } : Params).process_order = p.process_order from rfl]
  split
  · refine List.rel_append ?_ (cutting_block_feedRel p f2 a.polylines)
    rw [show drilling_block { p with feed_rate := f2 } a.circles
        = drilling_block p a.circles from rfl]
    exact forall₂_feedRel_same _ _ _
  · refine List.rel_append (cutting_block_feedRel p f2 a.polylines) ?_
    rw [show drilling_block { p with feed_rate := f2 } a.circles
        = drilling_block p a.circles from rfl]
    exact forall₂_feedRel_same _ _ _

/-- Witness for C10: the drill plunge line of Scenario A carries `F3000`. -/
theorem claim_C10_witness :
    (" F3000".data.isSuffixOf ("G01 Z7.0 F3000" : String).data) = true :=
  (claim_C10 scenarioA default_params (PyNum.pint 9999)).1 "G01 Z7.0 F3000"
    (by decide) (by decide)

/-! ## Claim C3: numeric formatting of the emitted lines

A character-level checker: scanning a line left to right, every numeral
token introduced by an axis letter `X`/`Y`/`Z` must be a fixed-point
numeral with exactly one digit after the decimal point, and every numeral
token introduced by `S` (spindle speed) or `F` (feed) must be a plain
integer numeral. -/

/-- A character that can occur inside a numeral token. -/
def numChar (c : Char) : Bool := c.isDigit || c == '.' || c == '-'

/-- A character that can start a numeral token. -/
def numStart (c : Char) : Bool := c.isDigit || c == '-'

/-- Drop one leading minus sign. -/
def stripSign (cs : List Char) : List Char :=
  match cs with
  | c :: rest => if c == '-' then rest else cs
  | [] => []

/-- An integer numeral: optional sign, then one or more digits. -/
def intDigits (cs : List Char) : Bool :=
  !(stripSign cs).isEmpty && (stripSign cs).all Char.isDigit

/-- A fixed-point numeral with exactly one digit after the point:
optional sign, one or more digits, a point, exactly one digit. -/
def oneDec (cs : List Char) : Bool :=
  match (stripSign cs).dropWhile Char.isDigit with
  | ['.', d] => !((stripSign cs).takeWhile Char.isDigit).isEmpty && d.isDigit
  | _ => false

/-- State of the line checker: scanning, just saw a numeral-introducing
letter (`true` for X/Y/Z, `false` for S/F), or inside a numeral token
(accumulated in reverse). -/
inductive ScanSt where
  | scan
  | armed (k : Bool)
  | run (k : Bool) (acc : List Char)

/-- Classify a character seen from the scanning state. -/
def freshState (c : Char) : ScanSt :=
  if c == 'X' || c == 'Y' || c == 'Z' then ScanSt.armed true
  else if c == 'S' || c == 'F' then ScanSt.armed false
  else ScanSt.scan

/-- Validate a finished numeral token (accumulated in reverse). -/
def finishRun (k : Bool) (acc : List Char) : Bool :=
  if k then oneDec acc.reverse else intDigits acc.reverse

/-- The line checker automaton. -/
def checker : ScanSt → List Char → Bool
  | ScanSt.scan, [] => true
  | ScanSt.armed _, [] => true
  | ScanSt.run k acc, [] => finishRun k acc
  | ScanSt.scan, c :: rest => checker (freshState c) rest
  | ScanSt.armed k, c :: rest =>
      if numStart c then checker (ScanSt.run k [c]) rest
      else checker (freshState c) rest
  | ScanSt.run k acc, c :: rest =>
      if numChar c then checker (ScanSt.run k (c :: acc)) rest
      else finishRun k acc && checker (freshState c) rest

/-- Check a whole line: every X/Y/Z numeral is one-decimal fixed point,
every S/F numeral is an integer. -/
def checkLine (l : String) : Bool := checker ScanSt.scan l.data

/-- The speed, feed, and safe-height parameters are Python ints (as the
documented defaults are). -/
def intParams (p : Params) : Bool :=
  (match p.cutter_speed with | PyNum.pint _ => true | PyNum.pfloat _ => false)
  && (match p.drill_speed with | PyNum.pint _ => true | PyNum.pfloat _ => false)
  && (match p.feed_rate with | PyNum.pint _ => true | PyNum.pfloat _ => false)
  && (match p.safe_height with | PyNum.pint _ => true | PyNum.pfloat _ => false)

/-- The default parameters with `safe_height` overridden by the
non-integer value 48.5 (as a JSON overlay can do). -/
def badParams : Params := { default_params with safe_height := PyNum.pfloat ⟨485, 1⟩ }

/-- Counterexample to claim C3 as stated: with the non-integer override
`safe_height = 48.5`, the generated program contains the line
`G00 Z48.5.0`, whose Z value is not rendered with one decimal digit. -/
theorem claim_C3_counterexample :
    ("G00 Z48.5.0" : String) ∈ generate_gcode badParams scenarioA
    ∧ checkLine "G00 Z48.5.0" = false := by
  constructor
  · decide
  · decide

lemma digit_numChar {c : Char} (h : c.isDigit = true) : numChar c = true := by
  simp [numChar, h]

lemma digit_numStart {c : Char} (h : c.isDigit = true) : numStart c = true := by
  simp [numStart, h]

lemma digit_ne_beq {c : Char} (d : Char) (h : c.isDigit = true) (hd : d.isDigit = false) :
    (c == d) = false := by
  rw [beq_eq_false_iff_ne]
  intro he
  rw [he] at h
  rw [h] at hd
  exact Bool.noConfusion hd

lemma freshState_digit {c : Char} (h : c.isDigit = true) : freshState c = ScanSt.scan := by
  unfold freshState
  rw [digit_ne_beq 'X' h (by decide), digit_ne_beq 'Y' h (by decide),
    digit_ne_beq 'Z' h (by decide), digit_ne_beq 'S' h (by decide),
    digit_ne_beq 'F' h (by decide)]
  rfl

lemma stripSign_digit {c : Char} (cs : List Char) (h : c.isDigit = true) :
    stripSign (c :: cs) = c :: cs := by
  show (if (c == '-') = true then cs else c :: cs) = c :: cs
  rw [digit_ne_beq '-' h (by decide)]
  rfl

lemma stripSign_dash (cs : List Char) : stripSign ('-' :: cs) = cs := rfl

lemma all_numChar_digits {A : List Char} (h : A.all Char.isDigit = true) :
    A.all numChar = true :=
  List.all_eq_true.mpr fun c hc => digit_numChar (List.all_eq_true.mp h c hc)

lemma dropWhile_digits_dot (A t : List Char) (hA : A.all Char.isDigit = true) :
    (A ++ '.' :: t).dropWhile Char.isDigit = '.' :: t := by
  induction A with
  | nil => simp [List.dropWhile]
  | cons a A ih =>
      simp only [List.all_cons, Bool.and_eq_true] at hA
      simp [List.dropWhile, hA.1, ih hA.2]

lemma takeWhile_digits_dot (A t : List Char) (hA : A.all Char.isDigit = true) :
    (A ++ '.' :: t).takeWhile Char.isDigit = A := by
  induction A with
  | nil => simp [List.takeWhile]
  | cons a A ih =>
      simp only [List.all_cons, Bool.and_eq_true] at hA
      simp [List.takeWhile, hA.1, ih hA.2]

lemma oneDec_digits_dot (A : List Char) (d : Char) (hA : A.all Char.isDigit = true)
    (hne : A ≠ []) (hd : d.isDigit = true) :
    oneDec (A ++ ['.', d]) = true ∧ oneDec ('-' :: (A ++ ['.', d])) = true := by
  match A, hne with
  | a :: A2, _ =>
      have ha : a.isDigit = true := by
        simp only [List.all_cons, Bool.and_eq_true] at hA
        exact hA.1
      have hstrip : stripSign ((a :: A2) ++ ['.', d]) = (a :: A2) ++ ['.', d] := by
        rw [List.cons_append]
        exact stripSign_digit _ ha
      constructor
      · rw [oneDec.eq_def, hstrip,
          show (a :: A2) ++ ['.', d] = (a :: A2) ++ '.' :: [d] from rfl,
          dropWhile_digits_dot _ _ hA, takeWhile_digits_dot _ _ hA]
        simp [hd]
      · rw [oneDec.eq_def, stripSign_dash,
          show (a :: A2) ++ ['.', d] = (a :: A2) ++ '.' :: [d] from rfl,
          dropWhile_digits_dot _ _ hA, takeWhile_digits_dot _ _ hA]
        simp [hd]

lemma intDigits_digits (A : List Char) (hA : A.all Char.isDigit = true) (hne : A ≠ []) :
    intDigits A = true ∧ intDigits ('-' :: A) = true := by
  match A, hne with
  | a :: A2, _ =>
      have ha : a.isDigit = true := by
        simp only [List.all_cons, Bool.and_eq_true] at hA
        exact hA.1
      constructor
      · rw [intDigits, stripSign_digit _ ha]
        simp [hA]
      · rw [intDigits, stripSign_dash]
        simp [hA]

lemma digitChar_isDigit {d : ℕ} (h : d < 10) : (Nat.digitChar d).isDigit = true := by
  interval_cases d <;> decide

lemma natDigitsGo_all : ∀ fuel n, n < fuel →
    (natDigitsGo fuel n).all Char.isDigit = true ∧ natDigitsGo fuel n ≠ [] := by
  intro fuel
  induction fuel with
  | zero => intro n h; omega
  | succ fuel ih =>
      intro n h
      rw [natDigitsGo]
      by_cases h10 : n < 10
      · simp [h10, digitChar_isDigit h10]
      · have h1 : 0 < n := by omega
        have h2 : n / 10 < n := Nat.div_lt_self h1 (by omega)
        have hq : n / 10 < fuel := by omega
        have hmod : n % 10 < 10 := Nat.mod_lt _ (by omega)
        obtain ⟨ha, -⟩ := ih (n / 10) hq
        simp [h10, ha, digitChar_isDigit hmod]

lemma natDigits_all (n : ℕ) :
    (natDigits n).all Char.isDigit = true ∧ natDigits n ≠ [] :=
  natDigitsGo_all (n + 1) n (Nat.lt_succ_self n)

lemma natDigits_lt10 {m : ℕ} (h : m < 10) : natDigits m = [Nat.digitChar m] := by
  rw [natDigits, natDigitsGo, if_pos h]

lemma intStr_data (z : ℤ) : ∃ t ts, (intStr z).data = t :: ts
    ∧ numStart t = true ∧ (t :: ts).all numChar = true
    ∧ intDigits (t :: ts) = true
    ∧ oneDec ((t :: ts) ++ ['.', '0']) = true := by
  obtain ⟨hall, hne⟩ := natDigits_all z.natAbs
  by_cases hz : z < 0
  · refine ⟨'-', natDigits z.natAbs, ?_, rfl, ?_, ?_, ?_⟩
    · show (intStr z).data = _
      rw [intStr, if_pos hz]
      rfl
    · rw [List.all_cons]
      simp [show numChar '-' = true from rfl, all_numChar_digits hall]
    · exact (intDigits_digits _ hall hne).2
    · exact (oneDec_digits_dot _ '0' hall hne (by decide)).2
  · match hA : natDigits z.natAbs, hne with
    | a :: A2, _ =>
        rw [hA] at hall
        have ha : a.isDigit = true := by
          simp only [List.all_cons, Bool.and_eq_true] at hall
          exact hall.1
        refine ⟨a, A2, ?_, digit_numStart ha, all_numChar_digits hall, ?_, ?_⟩
        · show (intStr z).data = _
          rw [intStr, if_neg hz]
          show natDigits z.natAbs = _
          exact hA
        · exact (intDigits_digits _ hall (by simp)).1
        · exact (oneDec_digits_dot _ '0' hall (by simp) (by decide)).1

lemma sign_digits_dot_tok (sign : String) (hs : sign = "" ∨ sign = "-")
    (A : List Char) (d : Char)
    (hA : A.all Char.isDigit = true) (hne : A ≠ []) (hd : d.isDigit = true) :
    ∃ t ts, (sign ++ String.mk A ++ "." ++ String.mk [d]).data = t :: ts
      ∧ numStart t = true ∧ (t :: ts).all numChar = true ∧ oneDec (t :: ts) = true := by
  match A, hne with
  | a :: A2, _ =>
      have ha : a.isDigit = true := by
        simp only [List.all_cons, Bool.and_eq_true] at hA
        exact hA.1
      have hdata : (sign ++ String.mk (a :: A2) ++ "." ++ String.mk [d]).data
          = sign.data ++ ((a :: A2) ++ ['.', d]) := by
        show (sign.data ++ (a :: A2) ++ ['.']) ++ [d] = sign.data ++ ((a :: A2) ++ ['.', d])
        simp [List.append_assoc]
      rcases hs with rfl | rfl
      · refine ⟨a, A2 ++ ['.', d], ?_, digit_numStart ha, ?_, ?_⟩
        · rw [hdata]
          rfl
        · rw [show (a :: (A2 ++ ['.', d])) = (a :: A2) ++ ['.', d] from rfl,
            List.all_append]
          simp [all_numChar_digits hA, show numChar '.' = true from rfl,
            digit_numChar hd]
        · exact (oneDec_digits_dot _ d hA (by simp) hd).1
      · refine ⟨'-', (a :: A2) ++ ['.', d], ?_, rfl, ?_, ?_⟩
        · rw [hdata]
          rfl
        · rw [List.all_cons, List.all_append]
          simp [show numChar '-' = true from rfl, all_numChar_digits hA,
            show numChar '.' = true from rfl, digit_numChar hd]
        · exact (oneDec_digits_dot _ d hA (by simp) hd).2

lemma fmt1_data (x : PyFloat) : ∃ t ts, (fmt1 x).data = t :: ts
    ∧ numStart t = true ∧ (t :: ts).all numChar = true ∧ oneDec (t :: ts) = true := by
  obtain ⟨hall, hne⟩ := natDigits_all ((rheDiv (x.m * 10) (tenPow x.e)).natAbs / 10)
  have hmod : (rheDiv (x.m * 10) (tenPow x.e)).natAbs % 10 < 10 :=
    Nat.mod_lt _ (by omega)
  have hs : (if rheDiv (x.m * 10) (tenPow x.e) < 0
        ∨ (rheDiv (x.m * 10) (tenPow x.e) = 0 ∧ x.m < 0) then ("-" : String) else "") = ""
      ∨ (if rheDiv (x.m * 10) (tenPow x.e) < 0
        ∨ (rheDiv (x.m * 10) (tenPow x.e) = 0 ∧ x.m < 0) then ("-" : String) else "") = "-" := by
    split
    · exact Or.inr rfl
    · exact Or.inl rfl
  obtain ⟨t, ts, hdata, h1, h2, h3⟩ :=
    sign_digits_dot_tok _ hs (natDigits ((rheDiv (x.m * 10) (tenPow x.e)).natAbs / 10))
      (Nat.digitChar ((rheDiv (x.m * 10) (tenPow x.e)).natAbs % 10)) hall hne
      (digitChar_isDigit hmod)
  refine ⟨t, ts, ?_, h1, h2, h3⟩
  rw [← hdata]
  show (fmt1 x).data = _
  rw [fmt1]
  rw [show natStr ((rheDiv (x.m * 10) (tenPow x.e)).natAbs % 10)
      = String.mk [Nat.digitChar ((rheDiv (x.m * 10) (tenPow x.e)).natAbs % 10)] by
    rw [natStr, natDigits_lt10 hmod]]
  rfl

lemma checker_scan_cons (c : Char) (rest : List Char) :
    checker ScanSt.scan (c :: rest) = checker (freshState c) rest := rfl

lemma checker_armed_cons (k : Bool) (c : Char) (rest : List Char) :
    checker (ScanSt.armed k) (c :: rest)
      = if numStart c then checker (ScanSt.run k [c]) rest
        else checker (freshState c) rest := rfl

lemma checker_run_cons (k : Bool) (acc : List Char) (c : Char) (rest : List Char) :
    checker (ScanSt.run k acc) (c :: rest)
      = if numChar c then checker (ScanSt.run k (c :: acc)) rest
        else finishRun k acc && checker (freshState c) rest := rfl

lemma checker_run_chunk (k : Bool) : ∀ (ds acc rest : List Char),
    ds.all numChar = true →
    checker (ScanSt.run k acc) (ds ++ rest)
      = checker (ScanSt.run k (ds.reverse ++ acc)) rest := by
  intro ds
  induction ds with
  | nil => intro acc rest h; simp
  | cons d ds ih =>
      intro acc rest h
      simp only [List.all_cons, Bool.and_eq_true] at h
      rw [List.cons_append, checker_run_cons, if_pos h.1, ih _ _ h.2]
      congr 1
      simp

lemma finishRun_reverse (k : Bool) (t : Char) (ts : List Char) :
    finishRun k (ts.reverse ++ [t]) = if k then oneDec (t :: ts) else intDigits (t :: ts) := by
  rw [finishRun]
  rw [show (ts.reverse ++ [t]).reverse = t :: ts by simp]

lemma checker_armed_token_nil (k : Bool) (t : Char) (ts : List Char)
    (hstart : numStart t = true) (hall : (t :: ts).all numChar = true) :
    checker (ScanSt.armed k) (t :: ts)
      = if k then oneDec (t :: ts) else intDigits (t :: ts) := by
  rw [checker_armed_cons, if_pos hstart]
  have hts : ts.all numChar = true := by
    simp only [List.all_cons, Bool.and_eq_true] at hall
    exact hall.2
  have h := checker_run_chunk k ts [t] [] hts
  rw [List.append_nil] at h
  rw [h]
  show finishRun k (ts.reverse ++ [t]) = _
  exact finishRun_reverse k t ts

lemma checker_armed_token_stop (k : Bool) (t : Char) (ts : List Char) (r : Char)
    (rs : List Char) (hstart : numStart t = true) (hall : (t :: ts).all numChar = true)
    (hr : numChar r = false) :
    checker (ScanSt.armed k) ((t :: ts) ++ r :: rs)
      = ((if k then oneDec (t :: ts) else intDigits (t :: ts))
          && checker ScanSt.scan (r :: rs)) := by
  rw [List.cons_append, checker_armed_cons, if_pos hstart]
  have hts : ts.all numChar = true := by
    simp only [List.all_cons, Bool.and_eq_true] at hall
    exact hall.2
  rw [checker_run_chunk k ts [t] (r :: rs) hts, checker_run_cons, if_neg (by simp [hr])]
  rw [show checker ScanSt.scan (r :: rs) = checker (freshState r) rs from rfl]
  rw [finishRun_reverse]

lemma checker_scan_digits_nil : ∀ ds : List Char, ds.all Char.isDigit = true →
    checker ScanSt.scan ds = true := by
  intro ds
  induction ds with
  | nil => intro h; rfl
  | cons d ds ih =>
      intro h
      simp only [List.all_cons, Bool.and_eq_true] at h
      rw [checker_scan_cons, freshState_digit h.1]
      exact ih h.2

lemma checkLine_M6 (n : ℕ) : checkLine ("M6 T" ++ natStr n) = true := by
  show checker ScanSt.scan (natDigits n) = true
  exact checker_scan_digits_nil _ (natDigits_all n).1

lemma checkLine_G43 (n : ℕ) : checkLine ("G43 H" ++ natStr n) = true := by
  show checker ScanSt.scan (natDigits n) = true
  exact checker_scan_digits_nil _ (natDigits_all n).1

lemma checkLine_M03 (z : ℤ) : checkLine ("M03 S" ++ intStr z) = true := by
  obtain ⟨t, ts, hdata, hstart, hall, hint, -⟩ := intStr_data z
  show checker (ScanSt.armed false) (intStr z).data = true
  rw [hdata, checker_armed_token_nil false t ts hstart hall]
  exact hint

lemma checkLine_G00Z (z : ℤ) : checkLine ("G00 Z" ++ intStr z ++ ".0") = true := by
  obtain ⟨t, ts, hdata, hstart, hall, -, hdot⟩ := intStr_data z
  show checker (ScanSt.armed true) ((intStr z).data ++ ['.', '0']) = true
  rw [hdata]
  have hall2 : (t :: (ts ++ ['.', '0'])).all numChar = true := by
    rw [show t :: (ts ++ ['.', '0']) = (t :: ts) ++ ['.', '0'] from rfl, List.all_append]
    simp [hall, show (['.', '0'].all numChar) = true from by decide]
  rw [show (t :: ts) ++ ['.', '0'] = t :: (ts ++ ['.', '0']) from rfl,
    checker_armed_token_nil true t (ts ++ ['.', '0']) hstart hall2]
  exact hdot

lemma checkLine_G00X (x y : PyFloat) :
    checkLine ("G00 X" ++ fmt1 x ++ " Y" ++ fmt1 y) = true := by
  obtain ⟨t, ts, hdx, hsx, hax, hox⟩ := fmt1_data x
  obtain ⟨u, us, hdy, hsy, hay, hoy⟩ := fmt1_data y
  show checker (ScanSt.armed true)
    (((fmt1 x).data ++ [' ', 'Y']) ++ (fmt1 y).data) = true
  rw [List.append_assoc,
    show [' ', 'Y'] ++ (fmt1 y).data = ' ' :: 'Y' :: (fmt1 y).data from rfl, hdx,
    checker_armed_token_stop true t ts ' ' ('Y' :: (fmt1 y).data) hsx hax (by decide),
    show checker ScanSt.scan (' ' :: 'Y' :: (fmt1 y).data)
      = checker (ScanSt.armed true) (fmt1 y).data from rfl,
    hdy, checker_armed_token_nil true u us hsy hay]
  simp [hox, hoy]

lemma checkLine_closing (x y : PyFloat) :
    checkLine ("G01 X" ++ fmt1 x ++ " Y" ++ fmt1 y) = true := by
  obtain ⟨t, ts, hdx, hsx, hax, hox⟩ := fmt1_data x
  obtain ⟨u, us, hdy, hsy, hay, hoy⟩ := fmt1_data y
  show checker (ScanSt.armed true)
    (((fmt1 x).data ++ [' ', 'Y']) ++ (fmt1 y).data) = true
  rw [List.append_assoc,
    show [' ', 'Y'] ++ (fmt1 y).data = ' ' :: 'Y' :: (fmt1 y).data from rfl, hdx,
    checker_armed_token_stop true t ts ' ' ('Y' :: (fmt1 y).data) hsx hax (by decide),
    show checker ScanSt.scan (' ' :: 'Y' :: (fmt1 y).data)
      = checker (ScanSt.armed true) (fmt1 y).data from rfl,
    hdy, checker_armed_token_nil true u us hsy hay]
  simp [hox, hoy]

lemma checkLine_G01Z (v : PyFloat) :
    checkLine ("G01 Z" ++ fmt1 v ++ " F3000") = true := by
  obtain ⟨t, ts, hd, hs, ha, ho⟩ := fmt1_data v
  show checker (ScanSt.armed true)
    ((fmt1 v).data ++ [' ', 'F', '3', '0', '0', '0']) = true
  rw [hd,
    checker_armed_token_stop true t ts ' ' ['F', '3', '0', '0', '0'] hs ha (by decide),
    show checker ScanSt.scan (' ' :: ['F', '3', '0', '0', '0']) = true from by decide]
  simp [ho]

lemma checkLine_cutMove (x y : PyFloat) (z : ℤ) :
    checkLine ("G01 X" ++ fmt1 x ++ " Y" ++ fmt1 y ++ " F" ++ intStr z) = true := by
  obtain ⟨t, ts, hdx, hsx, hax, hox⟩ := fmt1_data x
  obtain ⟨u, us, hdy, hsy, hay, hoy⟩ := fmt1_data y
  obtain ⟨v, vs, hdz, hsz, haz, hiz, -⟩ := intStr_data z
  show checker (ScanSt.armed true)
    (((((fmt1 x).data ++ [' ', 'Y']) ++ (fmt1 y).data) ++ [' ', 'F']) ++ (intStr z).data)
      = true
  simp only [List.append_assoc, List.cons_append, List.nil_append]
  rw [hdx,
    checker_armed_token_stop true t ts ' '
      ('Y' :: ((fmt1 y).data ++ ' ' :: 'F' :: (intStr z).data)) hsx hax (by decide),
    show checker ScanSt.scan
        (' ' :: 'Y' :: ((fmt1 y).data ++ ' ' :: 'F' :: (intStr z).data))
      = checker (ScanSt.armed true) ((fmt1 y).data ++ ' ' :: 'F' :: (intStr z).data)
      from rfl,
    hdy,
    checker_armed_token_stop true u us ' ' ('F' :: (intStr z).data) hsy hay (by decide),
    show checker ScanSt.scan (' ' :: 'F' :: (intStr z).data)
      = checker (ScanSt.armed false) (intStr z).data from rfl,
    hdz, checker_armed_token_nil false v vs hsz haz]
  simp [hox, hoy, hiz]

lemma check_tool_change (p : Params) (n : ℕ) (z zh : ℤ)
    (hsh : p.safe_height = PyNum.pint zh) :
    ∀ l ∈ generate_tool_change p n (PyNum.pint z), checkLine l = true := by
  intro l hl
  simp only [generate_tool_change, List.mem_cons, List.not_mem_nil, or_false] at hl
  rcases hl with rfl | rfl | rfl | rfl
  · exact checkLine_M6 n
  · exact checkLine_M03 z
  · exact checkLine_G43 n
  · rw [hsh]
    exact checkLine_G00Z zh

lemma check_drill (p : Params) (x y : PyFloat) (dep : PyNum) (zh : ℤ)
    (hsh : p.safe_height = PyNum.pint zh) :
    ∀ l ∈ generate_drill_hole p x y dep, checkLine l = true := by
  intro l hl
  simp only [generate_drill_hole, List.mem_cons, List.not_mem_nil, or_false] at hl
  rcases hl with rfl | rfl | rfl
  · exact checkLine_G00X x y
  · exact checkLine_G01Z dep.val
  · rw [hsh]
    exact checkLine_G00Z zh

lemma check_cut (p : Params) (pts : List (PyFloat × PyFloat)) (c : Bool) (zh zf : ℤ)
    (hsh : p.safe_height = PyNum.pint zh) (hf : p.feed_rate = PyNum.pint zf) :
    ∀ l ∈ generate_cut_polyline p pts c, checkLine l = true := by
  intro l hl
  rw [generate_cut_polyline.eq_def] at hl
  split at hl
  · exact absurd hl (List.not_mem_nil l)
  · match pts, hl with
    | start :: rest, hl =>
        simp only [List.mem_append, List.mem_cons, List.not_mem_nil, or_false,
          List.mem_map] at hl
        rcases hl with (((rfl | rfl) | ⟨pt, -, rfl⟩) | hif) | rfl
        · exact checkLine_G00X start.1 start.2
        · exact checkLine_G01Z p.cut_depth.val
        · rw [hf]
          exact checkLine_cutMove pt.1 pt.2 zf
        · split at hif
          · simp only [List.mem_cons, List.not_mem_nil, or_false] at hif
            subst hif
            exact checkLine_closing start.1 start.2
          · exact absurd hif (List.not_mem_nil l)
        · rw [hsh]
          exact checkLine_G00Z zh

lemma check_drilling_block (p : Params) (cs : List CircRec) (zd zh : ℤ)
    (hzd : p.drill_speed = PyNum.pint zd) (hsh : p.safe_height = PyNum.pint zh) :
    ∀ l ∈ drilling_block p cs, checkLine l = true := by
  intro l hl
  rw [drilling_block] at hl
  split at hl
  · exact absurd hl (List.not_mem_nil l)
  · rcases List.mem_append.mp hl with h | h
    · rw [hzd] at h
      exact check_tool_change p 2 zd zh hsh l h
    · obtain ⟨piece, hpiece, hlp⟩ := List.mem_flatten.mp h
      obtain ⟨cr, -, rfl⟩ := List.mem_map.mp hpiece
      exact check_drill p cr.center.1 cr.center.2 p.drill_depth zh hsh l hlp

lemma check_cutting_block (p : Params) (pls : List PolyRec) (zc zh zf : ℤ)
    (hzc : p.cutter_speed = PyNum.pint zc) (hsh : p.safe_height = PyNum.pint zh)
    (hf : p.feed_rate = PyNum.pint zf) :
    ∀ l ∈ cutting_block p pls, checkLine l = true := by
  intro l hl
  rw [cutting_block] at hl
  split at hl
  · exact absurd hl (List.not_mem_nil l)
  · rcases List.mem_append.mp hl with h | h
    · rw [hzc] at h
      exact check_tool_change p 1 zc zh hsh l h
    · obtain ⟨piece, hpiece, hlp⟩ := List.mem_flatten.mp h
      obtain ⟨pl, -, rfl⟩ := List.mem_map.mp hpiece
      exact check_cut p pl.points pl.closed zh zf hsh hf l hlp

/-- Claim C3 (amended): whenever the spindle speeds, the feed rate, and
the safe height are integers (as the documented defaults are), every
coordinate and depth value in the emitted program — the numerals after
`X`, `Y` and `Z` — is rendered with exactly one decimal digit, and every
spindle speed and feed rate — the numerals after `S` and `F` — is rendered
as a plain integer; with a non-integer override of `safe_height` or of a
speed/feed the contract is violated (e.g. `G00 Z48.5.0`).  Depths and
coordinates may be arbitrary decimal values: the `:.1f` rendering keeps
them one-decimal. -/
theorem claim_C3 (a : AnalyzerState) (p : Params) (h : intParams p = true) :
    ∀ l ∈ generate_gcode p a, checkLine l = true := by
  obtain ⟨zc, hzc⟩ : ∃ z, p.cutter_speed = PyNum.pint z := by
    cases hc : p.cutter_speed with
    | pint z => exact ⟨z, rfl⟩
    | pfloat f => simp [intParams, hc] at h
  obtain ⟨zd, hzd⟩ : ∃ z, p.drill_speed = PyNum.pint z := by
    cases hc : p.drill_speed with
    | pint z => exact ⟨z, rfl⟩
    | pfloat f => simp [intParams, hc] at h
  obtain ⟨zf, hzf⟩ : ∃ z, p.feed_rate = PyNum.pint z := by
    cases hc : p.feed_rate with
    | pint z => exact ⟨z, rfl⟩
    | pfloat f => simp [intParams, hc] at h
  obtain ⟨zh, hzh⟩ : ∃ z, p.safe_height = PyNum.pint z := by
    cases hc : p.safe_height with
    | pint z => exact ⟨z, rfl⟩
    | pfloat f => simp [intParams, hc] at h
  intro l hl
  rw [generate_gcode] at hl
  rcases List.mem_append.mp hl with h1 | h1
  · rcases List.mem_append.mp h1 with h2 | h2
    · simp only [generate_header, List.mem_cons, List.not_mem_nil, or_false] at h2
      subst h2
      decide
    · split at h2
      · rcases List.mem_append.mp h2 with h3 | h3
        · exact check_drilling_block p a.circles zd zh hzd hzh l h3
        · exact check_cutting_block p a.polylines zc zh zf hzc hzh hzf l h3
      · rcases List.mem_append.mp h2 with h3 | h3
        · exact check_cutting_block p a.polylines zc zh zf hzc hzh hzf l h3
        · exact check_drilling_block p a.circles zd zh hzd hzh l h3
  · simp only [generate_footer, List.mem_cons, List.not_mem_nil, or_false] at h1
    rcases h1 with rfl | rfl | rfl
    · decide
    · decide
    · decide

/-- Witness for C3 (amended): checked on a concrete Scenario A line under
the integer defaults. -/
theorem claim_C3_witness : checkLine "G00 X100.0 Y200.0" = true :=
  claim_C3 scenarioA default_params (by decide) "G00 X100.0 Y200.0" (by decide)
